import Mathlib

/-!
Verification development for the pyTeletask protocol engine.

The definitions below are shallow embeddings of the Python source:
`teletask/doip/telegram.py` (command construction, length/checksum, string
serialization), `teletask/doip/frame.py` (frame extraction from a raw byte
stream), `teletask/core/telegram_queue.py` (dispatch queue and routing) and
`teletask/devices/remote_value.py` (remote-value state machine).
Python `None` values, enum members stored un-coerced, and exceptions are made
explicit via dedicated constructors, `Option` and `Except`.
-/

namespace Teletask

/-- Enum `TelegramCommand` from telegram.py. -/
inductive TelegramCommand
  | SET | GET | GROUPGET | LOG | EVENTREPORT | WRITEDISPLAY | KEEPALIVE
deriving DecidableEq

/-- Python `TelegramCommand.value` (the `.value` of each Python enum member). -/
def TelegramCommand.value : TelegramCommand → Int
  | .SET => 7
  | .GET => 6
  | .GROUPGET => 9
  | .LOG => 3
  | .EVENTREPORT => 16
  | .WRITEDISPLAY => 4
  | .KEEPALIVE => 11

/-- Enum `TelegramFunction` from telegram.py. -/
inductive TelegramFunction
  | RELAY | DIMMER | MOTOR | LOCMOOD | TIMEDMOOD | GENMOOD | FLAG | SENSOR
  | AUDIO | PROCESS | REGIME | TPKEY | SERVICE | MESSAGE | CONDITION
deriving DecidableEq

namespace TelegramFunction

/-- Python `TelegramFunction.value` (the `.value` of each Python enum member). -/
def value : TelegramFunction → Int
  | RELAY => 1
  | DIMMER => 2
  | MOTOR => 6
  | LOCMOOD => 8
  | TIMEDMOOD => 9
  | GENMOOD => 10
  | FLAG => 15
  | SENSOR => 20
  | AUDIO => 31
  | PROCESS => 3
  | REGIME => 14
  | TPKEY => 52
  | SERVICE => 53
  | MESSAGE => 54
  | CONDITION => 60

/-- Python `TelegramFunction.name` (the `.name` string of each Python enum member). -/
def pyName : TelegramFunction → String
  | RELAY => "RELAY"
  | DIMMER => "DIMMER"
  | MOTOR => "MOTOR"
  | LOCMOOD => "LOCMOOD"
  | TIMEDMOOD => "TIMEDMOOD"
  | GENMOOD => "GENMOOD"
  | FLAG => "FLAG"
  | SENSOR => "SENSOR"
  | AUDIO => "AUDIO"
  | PROCESS => "PROCESS"
  | REGIME => "REGIME"
  | TPKEY => "TPKEY"
  | SERVICE => "SERVICE"
  | MESSAGE => "MESSAGE"
  | CONDITION => "CONDITION"

end TelegramFunction

open TelegramFunction in
/-- Python `TelegramFunction(n)`: value-based enum lookup; `Option.none` models the
`ValueError` Python raises for an unknown value. -/
def telegramFunctionOfNat : Nat → Option TelegramFunction
  | 1 => some RELAY
  | 2 => some DIMMER
  | 6 => some MOTOR
  | 8 => some LOCMOOD
  | 9 => some TIMEDMOOD
  | 10 => some GENMOOD
  | 15 => some FLAG
  | 20 => some SENSOR
  | 31 => some AUDIO
  | 3 => some PROCESS
  | 14 => some REGIME
  | 52 => some TPKEY
  | 53 => some SERVICE
  | 54 => some MESSAGE
  | 60 => some CONDITION
  | _ => Option.none

open TelegramFunction in
/-- Python `TelegramFunction[name]`: name-based enum lookup; `Option.none` models the
`KeyError` Python raises for an unknown name. -/
def telegramFunctionOfName : String → Option TelegramFunction
  | "RELAY" => some RELAY
  | "DIMMER" => some DIMMER
  | "MOTOR" => some MOTOR
  | "LOCMOOD" => some LOCMOOD
  | "TIMEDMOOD" => some TIMEDMOOD
  | "GENMOOD" => some GENMOOD
  | "FLAG" => some FLAG
  | "SENSOR" => some SENSOR
  | "AUDIO" => some AUDIO
  | "PROCESS" => some PROCESS
  | "REGIME" => some REGIME
  | "TPKEY" => some TPKEY
  | "SERVICE" => some SERVICE
  | "MESSAGE" => some MESSAGE
  | "CONDITION" => some CONDITION
  | _ => Option.none

/-- A Python value stored in a `Telegram.payload` slot.  `Telegram.__init__`
stores plain ints, but the GET/SET branches store the raw enum member
`TeletaskConst.CENTRAL` (no `.value`), and the SET branch can store `None`. -/
inductive PyVal
  | int (n : Int)
  | central
  | pyNone
deriving DecidableEq

/-- Python `"{!s}".format(v)` for a payload slot value. -/
def PyVal.pyStr : PyVal → String
  | .int n => toString n
  | .central => "TeletaskConst.CENTRAL"
  | .pyNone => "None"

/-- State of a `Telegram` object (telegram.py).  `payload` is the dict
`{0: v0, 1: v1, ...}` in key order (keys are always `0..len-1` here). -/
structure Telegram where
  start : Int
  length : Int
  command : Int
  payload : List PyVal
  checksum : Int
deriving DecidableEq

/-- Python dict assignment `payload[k] = v` where the dict currently holds keys
`0..len-1` (the only shape occurring in `Telegram.__init__`): replaces the
entry if `k < len`, otherwise appends. -/
def dictSet (p : List PyVal) (k : Nat) (v : PyVal) : List PyVal :=
  if k < p.length then p.set k v else p ++ [v]

/-- Python `None` or an int argument as stored into a payload slot. -/
def pyOfAddr : Option Int → PyVal
  | some a => .int a
  | Option.none => .pyNone

/-- The command-specific payload built at the top of `Telegram.__init__`.
`Except.error` models the exceptions raised there: `CouldNotParseTeletaskCommand`
for an unhandled command, `AttributeError` for `function.value` on `None`. -/
def basePayload : Option TelegramCommand → Option TelegramFunction →
    Option Int → Except Unit (List PyVal)
  | some .LOG, some fn, _ => .ok [.int fn.value, .int 1]
  | some .LOG, Option.none, _ => .error ()
  | some .GET, some fn, a => .ok [.central, .int fn.value, .int 0, pyOfAddr a]
  | some .GET, Option.none, _ => .error ()
  | some .SET, some fn, _ => .ok [.central, .int fn.value]
  | some .SET, Option.none, _ => .ok [.central, .pyNone]
  | _, _, _ => .error ()

/-- The `if setting is not None:` block of `Telegram.__init__`:
`payload[2] = 0; payload[3] = address; payload[4] = setting.value`. -/
def applySetting (p : List PyVal) (address : Option Int) : Option Int → List PyVal
  | Option.none => p
  | some s => dictSet (dictSet (dictSet p 2 (.int 0)) 3 (pyOfAddr address)) 4 (.int s)

/-- Python `Telegram.__init__(command, function, address, setting)`.  On success the
object has `start = 2`, `length = 0`, `checksum = 0` and the constructed
payload; `Except.error` models a raised exception. -/
def mkTelegram (command : Option TelegramCommand) (function : Option TelegramFunction)
    (address : Option Int) (setting : Option Int) : Except Unit Telegram :=
  match basePayload command function address with
  | .error e => .error e
  | .ok p =>
    match command with
    | Option.none => .error ()
    | some c =>
      .ok { start := 2, length := 0, command := c.value,
            payload := applySetting p address setting, checksum := 0 }

/-- Python `Telegram.calc_length`: `self.length = len(self.payload) + 3`
(the `except` branch is unreachable: `len` of a dict never raises). -/
def Telegram.calc_length (t : Telegram) : Telegram :=
  { t with length := (t.payload.length : Int) + 3 }

/-- Python `sum(self.payload.values())`.  `Option.none` models the `TypeError` Python
raises when a non-int (the raw enum member or `None`) is among the values. -/
def sumPyVals : List PyVal → Option Int
  | [] => some 0
  | .int n :: rest => (sumPyVals rest).map (fun s => n + s)
  | .central :: _ => Option.none
  | .pyNone :: _ => Option.none

/-- Python `Telegram.calc_checksum`:
`self.checksum = (sum(payload.values()) + start + length + command) % 256`;
`Option.none` models the `TypeError` from the sum. -/
def Telegram.calc_checksum (t : Telegram) : Option Telegram :=
  match sumPyVals t.payload with
  | some s => some { t with checksum := (s + t.start + t.length + t.command) % 256 }
  | Option.none => Option.none

/-- Python `Telegram.__str__`: runs `calc_length` then `calc_checksum` (both mutate
`self`), then formats `"s,{length},{command},{payload},{checksum},"`.
Returns the produced text together with the post-call object state;
`Option.none` models the escaped `TypeError`. -/
def Telegram.toStr (t : Telegram) : Option (String × Telegram) :=
  let t1 := t.calc_length
  match t1.calc_checksum with
  | some t2 =>
      some ("s," ++ toString t2.length ++ "," ++ toString t2.command ++ ","
              ++ String.intercalate "," (t2.payload.map PyVal.pyStr) ++ ","
              ++ toString t2.checksum ++ ",", t2)
  | Option.none => Option.none

/-! ### Frame extraction (frame.py) -/

/-- Decimal digits of `n`, least-significant first, computed with explicit fuel
so that it is structurally recursive (fuel `n` always suffices). -/
def digitsAux : Nat → Nat → List Nat
  | 0, _ => []
  | fuel + 1, n => if n = 0 then [] else n % 10 :: digitsAux fuel (n / 10)

/-- Decimal digits of `n`, least-significant first (`[]` for `0`). -/
def natDigits (n : Nat) : List Nat := digitsAux n n

/-- The ASCII character of a decimal digit. -/
def digitChar (d : Nat) : Char := Char.ofNat (48 + d)

/-- Python `str(n)` for a non-negative int, as a character list. -/
def natToChars (n : Nat) : List Char :=
  if n = 0 then ['0'] else ((natDigits n).reverse.map digitChar)

/-- Python `str(n)` for a non-negative int. -/
def natToStr (n : Nat) : String := String.mk (natToChars n)

/-- Python `int(s)` restricted to the strings occurring here (runs of digits,
possibly empty): `Option.none` models the `ValueError` on the empty string. -/
def parseNatChars (cs : List Char) : Option Nat :=
  if cs = [] then Option.none
  else if cs.all (fun c => c.isDigit) then
    some (cs.foldl (fun acc c => 10 * acc + (c.toNat - 48)) 0)
  else Option.none

/-- Python `','.join(str(x) for x in raw)` as a character list. -/
def joinTokens : List Nat → List Char
  | [] => []
  | [t] => natToChars t
  | t :: ts => natToChars t ++ ',' :: joinTokens ts

/-- The literal part `2,9,16,` of the regex `(2,9,16,([0-9]*,?){7})`. -/
def headerChars : List Char := ['2', ',', '9', ',', '1', '6', ',']

/-- One greedy repetition of `[0-9]*,?`: the consumed characters and the rest. -/
def consumeRep (cs : List Char) : List Char × List Char :=
  let digits := cs.takeWhile (fun c => c.isDigit)
  match cs.dropWhile (fun c => c.isDigit) with
  | c :: rest => if c = ',' then (digits ++ [','], rest) else (digits, c :: rest)
  | [] => (digits, [])

/-- Python `k` greedy repetitions of `[0-9]*,?`. -/
def consumeReps : Nat → List Char → List Char × List Char
  | 0, cs => ([], cs)
  | k + 1, cs =>
    let r := consumeRep cs
    let r' := consumeReps k r.2
    (r.1 ++ r'.1, r'.2)

/-- Python `re.findall(r"(2,9,16,([0-9]*,?){7})", s)` scanning loop, with explicit
fuel (the input length always suffices): at each position, if the literal
header matches, consume it plus seven greedy repetitions, emit the matched
characters, and continue after the match; otherwise advance one character. -/
def scanFramesAux : Nat → List Char → List (List Char)
  | 0, _ => []
  | fuel + 1, cs =>
    match cs with
    | [] => []
    | c :: cs' =>
      if headerChars.isPrefixOf (c :: cs') then
        let r := consumeReps 7 ((c :: cs').drop 7)
        (headerChars ++ r.1) :: scanFramesAux fuel r.2
      else scanFramesAux fuel cs'

/-- All matches of the frame regex in a character stream, in scan order. -/
def scanFrames (cs : List Char) : List (List Char) := scanFramesAux cs.length cs

/-- Python `s.split(",")` on a character list. -/
def splitCommas : List Char → List (List Char)
  | [] => [[]]
  | c :: rest =>
    if c = ',' then [] :: splitCommas rest
    else
      match splitCommas rest with
      | g :: gs => (c :: g) :: gs
      | [] => [[c]]

/-- State of a `Frame` object (frame.py) as built by `FrameQueue.process_frame`:
`doip_component = int(event[4])`, `group_address = int(event[6])`,
`state = int(event[8])`, `payload = event` (the split token strings). -/
structure Frame where
  doip_component : Nat
  group_address : Nat
  state : Nat
  payload : List (List Char)
deriving DecidableEq

/-- Python `FrameQueue.process_frame(packet)`: split on commas and read fields at
indices 4, 6 and 8; any `IndexError`/`ValueError` is caught and yields `None`. -/
def process_frame (packet : List Char) : Option Frame :=
  let event := splitCommas packet
  do
    let e4 ← event[4]?
    let f ← parseNatChars e4
    let e6 ← event[6]?
    let a ← parseNatChars e6
    let e8 ← event[8]?
    let s ← parseNatChars e8
    pure { doip_component := f, group_address := a, state := s, payload := event }

/-- Python `FrameQueue.process_frames(raw)`: join the raw ints with commas, find all
regex matches, process each and keep the non-`None` frames. -/
def process_frames (raw : List Nat) : List Frame :=
  (scanFrames (joinTokens raw)).filterMap process_frame

/-! ### Dispatch queue (telegram_queue.py) -/

/-- An object that can sit in `teletask.telegrams`: an outbound `Telegram`
command, a decoded inbound `Frame` event, or a `TelegramHeartbeat`. -/
inductive QueueItem
  | telegram (t : Telegram)
  | frame (f : Frame)
  | heartbeat
deriving DecidableEq

/-- Which handler `TelegramQueue.process_telegram` selects. -/
inductive Handler
  | incoming
  | outgoing
deriving DecidableEq

/-- The dispatch test of `TelegramQueue.process_telegram`:
`isinstance(telegram, Telegram)` selects `process_telegram_incoming`,
everything else goes to `process_telegram_outgoing`. -/
def process_telegram_branch : QueueItem → Handler
  | .telegram _ => .incoming
  | _ => .outgoing

/-- Whether the popped object has a `to_teletask` method (required by the send
path `send_telegram → Client.send → frame.to_teletask()`): `Telegram` and
`TelegramHeartbeat` define it, `Frame` does not. -/
def hasAttr_to_teletask : QueueItem → Bool
  | .telegram _ => true
  | .heartbeat => true
  | .frame _ => false

/-- Whether the popped object has a `doip_component` attribute (read by
`process_telegram_incoming`): only `Frame` has one. -/
def hasAttr_doip_component : QueueItem → Bool
  | .frame _ => true
  | _ => false

/-- Python `TelegramQueue.run`: pop items until `None` (the sentinel pushed by
`stop()`), processing each popped item in order.  Returns the processed items
and whether `queue_stopped` was set (the loop exited).  An empty remainder
without a sentinel means the consumer blocks forever on `get()`. -/
def runQueue : List (Option QueueItem) → List QueueItem × Bool
  | [] => ([], false)
  | Option.none :: _ => ([], true)
  | some it :: rest =>
    let r := runQueue rest
    (it :: r.1, r.2)

/-! ### Inbound routing (telegram_queue.py, `update_component_state`) -/

/-- Outcome of `TelegramQueue.update_component_state`: an exception escaped the
method, the update was dropped (logged or silently skipped), or
`remote.change_state(state)` was invoked on the registered device. -/
inductive RouteOutcome
  | raised
  | dropped
  | called (name addr : String) (state : Nat)
deriving DecidableEq

/-- Lookup in the `registered_devices` dict (component name to the set of
registered address strings). -/
def lookupReg : List (String × List String) → String → Option (List String)
  | [], _ => Option.none
  | (k, v) :: rest, name => if k = name then some v else lookupReg rest name

/-- Whether a device is registered under `(name, addr)`. -/
def registeredAt (reg : List (String × List String)) (name addr : String) : Bool :=
  match lookupReg reg name with
  | some addrs => addrs.contains addr
  | Option.none => false

/-- Python `TelegramQueue.update_component_state(doip_component, group_address, state)`:
`TelegramFunction(doip_component).name` raises `ValueError` for an unknown tag
(escaping the method); then, if the name is not `'None'` and the address is not
`None`, a registered `(name, str(group_address))` device gets
`change_state(state)`, a `KeyError` on the address is caught and logged, and an
unregistered component name falls through silently. -/
def update_component_state (reg : List (String × List String))
    (doip_component : Nat) (group_address : Option Nat) (state : Nat) : RouteOutcome :=
  match telegramFunctionOfNat doip_component with
  | Option.none => .raised
  | some f =>
    match group_address with
    | Option.none => .dropped
    | some a =>
      if f.pyName = "None" then .dropped
      else
        match lookupReg reg f.pyName with
        | Option.none => .dropped
        | some addrs =>
          if addrs.contains (natToStr a) then .called f.pyName (natToStr a) state
          else .dropped

/-! ### Remote value (remote_value.py) -/

/-- State of a `RemoteValue` object: `doip_component` (component name string),
`group_address` (None when unbound), `brightness_val`, whether
`after_update_cb` is set, and the stored `payload` (None when unset). -/
structure RemoteValue where
  doip_component : String
  group_address : Option Int
  brightness_val : Int
  hasCb : Bool
  payload : Option Int
deriving DecidableEq

/-- Python `RemoteValue.initialized`: Python `bool(self.group_address)` for an
int-valued address (`None` and `0` are falsy). -/
def RemoteValue.initialized (rv : RemoteValue) : Bool :=
  match rv.group_address with
  | Option.none => false
  | some a => decide (a ≠ 0)

/-- Python `RemoteValue.process(telegram)`: if the telegram's group address matches,
and the stored payload is unset or differs from the telegram's payload, store
it and fire `after_update_cb` (when set); always returns `True` on an address
match.  Result: `(new state, returned bool, callback fired)`. -/
def RemoteValue.process (rv : RemoteValue) (tgroup : Option Int) (tpayload : Int) :
    RemoteValue × Bool × Bool :=
  if rv.group_address = tgroup then
    if rv.payload ≠ some tpayload ∨ rv.payload = Option.none then
      ({ rv with payload := some tpayload }, true, rv.hasCb)
    else (rv, true, false)
  else (rv, false, false)

/-- Python `RemoteValue.send(receivedSetting)`: `TelegramFunction[self.doip_component]`
(`KeyError` for an unknown name, modeled as `Option.none`), the setting is the
brightness for `"DIMMER"` and `receivedSetting` otherwise, and a SET `Telegram`
for `int(self.group_address)` is built and queued. -/
def RemoteValue.send (rv : RemoteValue) (receivedSetting : Int) : Option Telegram :=
  match telegramFunctionOfName rv.doip_component with
  | Option.none => Option.none
  | some f =>
    let settingVal : Int :=
      if rv.doip_component = "DIMMER" then rv.brightness_val else receivedSetting
    match rv.group_address with
    | Option.none => Option.none
    | some a =>
      match mkTelegram (some .SET) (some f) (some a) (some settingVal) with
      | .ok t => some t
      | .error _ => Option.none

/-- Python `RemoteValue.set(value)`: no-op (apart from a log line) when not
initialized; otherwise convert the value via `to_teletask` (`conv`, identity in
both concrete subclasses), update the stored payload when unset or different,
update `brightness_val` when the value is not `None`, always call `send()`
(default setting `TelegramSetting.TOGGLE.value = 103`), then fire
`after_update_cb` when an update happened and a callback is set.  Result:
`(new state, queued wire writes, callback fired)`; `Except.error` models an
exception escaping from `send()`. -/
def RemoteValue.set (conv : Int → Int) (rv : RemoteValue) (value : Option Int) :
    Except Unit (RemoteValue × List Telegram × Bool) :=
  match rv.initialized with
  | false => .ok (rv, [], false)
  | true =>
    let wire : Option Int := value.map conv
    let updated : Bool := decide (rv.payload = Option.none) || decide (wire ≠ rv.payload)
    let rv1 := if updated then { rv with payload := wire } else rv
    let rv2 :=
      match value with
      | some v => { rv1 with brightness_val := v }
      | Option.none => rv1
    match rv2.send 103 with
    | Option.none => .error ()
    | some t => .ok (rv2, [t], updated && rv2.hasCb)

/-! ## Theorems -/

/-- Helper: any telegram produced by `mkTelegram` has start marker 2. -/
theorem mkTelegram_start (cmd : Option TelegramCommand) (fn : Option TelegramFunction)
    (addr setting : Option Int) (t : Telegram)
    (hmk : mkTelegram cmd fn addr setting = .ok t) : t.start = 2 := by
  unfold mkTelegram at hmk
  split at hmk
  · exact absurd hmk (by simp)
  · split at hmk
    · exact absurd hmk (by simp)
    · cases hmk
      rfl

/-- C2: for every encodable command, the encoded frame's length field is the
payload field count plus 3, and its checksum field is
(sum of payload fields + 2 + length + commandCode) mod 256, always in [0,255]. -/
theorem C2_checksum_law (cmd : Option TelegramCommand) (fn : Option TelegramFunction)
    (addr setting : Option Int) (t : Telegram) (txt : String) (t' : Telegram)
    (hmk : mkTelegram cmd fn addr setting = .ok t)
    (henc : t.toStr = some (txt, t')) :
    t'.length = (t'.payload.length : Int) + 3 ∧
    ∃ s, sumPyVals t'.payload = some s ∧
      t'.checksum = (s + 2 + t'.length + t'.command) % 256 ∧
      0 ≤ t'.checksum ∧ t'.checksum ≤ 255 := by
  have hstart : t.start = 2 := mkTelegram_start cmd fn addr setting t hmk
  unfold Telegram.toStr Telegram.calc_checksum Telegram.calc_length at henc
  simp only at henc
  split at henc
  case _ t2 heq =>
    split at heq
    case _ s hs =>
      cases heq
      cases henc
      refine ⟨rfl, s, hs, ?_, ?_, ?_⟩
      · simp [hstart]
      · exact Int.emod_nonneg _ (by decide)
      · have := Int.emod_lt_of_pos (s + t.start + ((t.payload.length : Int) + 3) + t.command)
          (show (0 : Int) < 256 by decide)
        dsimp only
        omega
    case _ => exact absurd heq (by simp)
  case _ => exact absurd henc (by simp)

/-- C2 witness: the law instantiated at the LOG/RELAY command. -/
theorem C2_checksum_law_witness :
    (Telegram.length
      { start := 2, length := 5, command := 3,
        payload := [PyVal.int 1, PyVal.int 1], checksum := 12 } =
      ((([PyVal.int 1, PyVal.int 1] : List PyVal).length : Int) + 3)) ∧
    ∃ s, sumPyVals [PyVal.int 1, PyVal.int 1] = some s ∧
      (12 : Int) = (s + 2 + 5 + 3) % 256 ∧ (0 : Int) ≤ 12 ∧ (12 : Int) ≤ 255 :=
  C2_checksum_law (some .LOG) (some .RELAY) Option.none Option.none
    { start := 2, length := 0, command := 3,
      payload := [PyVal.int 1, PyVal.int 1], checksum := 0 }
    "s,5,3,1,1,12,"
    { start := 2, length := 5, command := 3,
      payload := [PyVal.int 1, PyVal.int 1], checksum := 12 }
    (by rfl) (by rfl)

/-- C3: building `Telegram(SET, RELAY, address=1, setting=ON)` stores the raw
enum member `TeletaskConst.CENTRAL` (not its value 1) in payload slot 0, so
although the length would be 8 as claimed, `str()` raises a `TypeError` inside
`calc_checksum` and no frame text "s,8,7,1,1,0,1,255,checksum," is produced. -/
theorem C3_central_enum_breaks_set_encoding :
    mkTelegram (some .SET) (some .RELAY) (some 1) (some 255) =
      .ok { start := 2, length := 0, command := 7,
            payload := [PyVal.central, PyVal.int 1, PyVal.int 0, PyVal.int 1, PyVal.int 255],
            checksum := 0 } ∧
    Telegram.length (Telegram.calc_length
      { start := 2, length := 0, command := 7,
        payload := [PyVal.central, PyVal.int 1, PyVal.int 0, PyVal.int 1, PyVal.int 255],
        checksum := 0 }) = 8 ∧
    Telegram.toStr
      { start := 2, length := 0, command := 7,
        payload := [PyVal.central, PyVal.int 1, PyVal.int 0, PyVal.int 1, PyVal.int 255],
        checksum := 0 } = Option.none := by
  refine ⟨by rfl, by rfl, by rfl⟩

/-- C9 counterexample: a freshly constructed LOG command has `length = 0` and
`checksum = 0`, and producing its frame text returns a mutated object with
`length = 5`, `checksum = 12`: encoding is not mutation-free. -/
theorem C9_counterexample :
    mkTelegram (some .LOG) (some .RELAY) Option.none Option.none =
      .ok { start := 2, length := 0, command := 3,
            payload := [PyVal.int 1, PyVal.int 1], checksum := 0 } ∧
    Telegram.toStr
      { start := 2, length := 0, command := 3,
        payload := [PyVal.int 1, PyVal.int 1], checksum := 0 } =
      some ("s,5,3,1,1,12,",
        { start := 2, length := 5, command := 3,
          payload := [PyVal.int 1, PyVal.int 1], checksum := 12 }) ∧
    ({ start := 2, length := 5, command := 3,
       payload := [PyVal.int 1, PyVal.int 1], checksum := 12 } : Telegram) ≠
      ({ start := 2, length := 0, command := 3,
         payload := [PyVal.int 1, PyVal.int 1], checksum := 0 } : Telegram) := by
  refine ⟨by rfl, by rfl, by decide⟩

/-- C9 amended: producing the frame text is deterministic and touches only the
derived `length` and `checksum` fields — `start`, `command` and `payload` are
unchanged, and re-encoding the returned state yields the same text and the
same state (encoding twice yields the same text). -/
theorem C9_encode_deterministic (t : Telegram) (txt : String) (t' : Telegram)
    (h : t.toStr = some (txt, t')) :
    t'.start = t.start ∧ t'.command = t.command ∧ t'.payload = t.payload ∧
    t'.toStr = some (txt, t') := by
  unfold Telegram.toStr Telegram.calc_checksum Telegram.calc_length at h ⊢
  simp only at h ⊢
  split at h
  case _ t2 heq =>
    split at heq
    case _ s hs =>
      cases heq
      cases h
      refine ⟨rfl, rfl, rfl, ?_⟩
      simp [hs]
    case _ => exact absurd heq (by simp)
  case _ => exact absurd h (by simp)

/-- C9 amended witness: instantiated at the LOG/RELAY command's state. -/
theorem C9_encode_deterministic_witness :
    Telegram.start
      { start := 2, length := 5, command := 3,
        payload := [PyVal.int 1, PyVal.int 1], checksum := 12 } = 2 ∧
    Telegram.command
      { start := 2, length := 5, command := 3,
        payload := [PyVal.int 1, PyVal.int 1], checksum := 12 } = 3 ∧
    Telegram.payload
      { start := 2, length := 5, command := 3,
        payload := [PyVal.int 1, PyVal.int 1], checksum := 12 } = [PyVal.int 1, PyVal.int 1] ∧
    Telegram.toStr
      { start := 2, length := 5, command := 3,
        payload := [PyVal.int 1, PyVal.int 1], checksum := 12 } =
      some ("s,5,3,1,1,12,",
        { start := 2, length := 5, command := 3,
          payload := [PyVal.int 1, PyVal.int 1], checksum := 12 }) :=
  C9_encode_deterministic
    { start := 2, length := 0, command := 3,
      payload := [PyVal.int 1, PyVal.int 1], checksum := 0 }
    "s,5,3,1,1,12,"
    { start := 2, length := 5, command := 3,
      payload := [PyVal.int 1, PyVal.int 1], checksum := 12 }
    (by rfl)

/-- C1: the consumer's dispatch is inverted.  An outbound `Telegram` command is
routed to `process_telegram_incoming` (which needs the `doip_component`
attribute the Telegram class does not have), while a decoded inbound `Frame`
is routed to `process_telegram_outgoing` (whose send path needs the
`to_teletask` method the Frame class does not have) — the opposite of
"Command → encode and write, Event → inbound handling". -/
theorem C1_dispatch_inverted :
    process_telegram_branch
      (.telegram
        { start := 2, length := 0, command := 3,
          payload := [PyVal.int 1, PyVal.int 1], checksum := 0 }) = Handler.incoming ∧
    hasAttr_doip_component
      (.telegram
        { start := 2, length := 0, command := 3,
          payload := [PyVal.int 1, PyVal.int 1], checksum := 0 }) = false ∧
    process_telegram_branch
      (.frame
        { doip_component := 1, group_address := 3,
          state := 255, payload := [] }) = Handler.outgoing ∧
    hasAttr_to_teletask
      (.frame
        { doip_component := 1, group_address := 3,
          state := 255, payload := [] }) = false := by
  refine ⟨rfl, rfl, rfl, rfl⟩

/-- C7: if the sentinel (None) is enqueued after the pending items, the
consumer loop pops and processes exactly those items, in order, and then
terminates (queue_stopped is set); without a sentinel the loop never exits. -/
theorem C7_stop_drains_and_terminates (q : List QueueItem) (rest : List (Option QueueItem)) :
    runQueue (q.map some ++ Option.none :: rest) = (q, true) ∧
    runQueue (q.map some) = (q, false) := by
  induction q with
  | nil => exact ⟨rfl, rfl⟩
  | cons it q ih =>
    refine ⟨?_, ?_⟩
    · show (it :: (runQueue (q.map some ++ Option.none :: rest)).1,
        (runQueue (q.map some ++ Option.none :: rest)).2) = _
      rw [ih.1]
    · show (it :: (runQueue (q.map some)).1, (runQueue (q.map some)).2) = _
      rw [ih.2]

/-- C10: on a Remote Value whose group address is unset, `set` is a complete
no-op apart from the log line: no wire write is issued, the stored payload and
brightness are untouched, and the change callback is not invoked. -/
theorem C10_set_on_unbound_is_noop (conv : Int → Int) (rv : RemoteValue) (v : Option Int)
    (h : rv.group_address = Option.none) :
    RemoteValue.set conv rv v = .ok (rv, [], false) := by
  have hinit : rv.initialized = false := by
    unfold RemoteValue.initialized
    rw [h]
  unfold RemoteValue.set
  rw [hinit]

/-- C10 witness: instantiated at an unbound RELAY remote value. -/
theorem C10_set_on_unbound_is_noop_witness :
    RemoteValue.set (fun x => x)
      { doip_component := "RELAY", group_address := Option.none, brightness_val := 0,
        hasCb := true, payload := Option.none } (some 255) =
      .ok ({ doip_component := "RELAY", group_address := Option.none, brightness_val := 0,
             hasCb := true, payload := Option.none }, [], false) :=
  C10_set_on_unbound_is_noop (fun x => x)
    { doip_component := "RELAY", group_address := Option.none, brightness_val := 0,
      hasCb := true, payload := Option.none } (some 255) rfl

/-- C5 counterexample: applying the already-stored payload 5 leaves the state
unchanged and does not fire the callback (no update occurred), yet `process`
returns `True` — it does not return whether an update occurred. -/
theorem C5_counterexample :
    RemoteValue.process
      { doip_component := "RELAY", group_address := some 1, brightness_val := 0,
        hasCb := true, payload := some 5 } (some 1) 5 =
      ({ doip_component := "RELAY", group_address := some 1, brightness_val := 0,
         hasCb := true, payload := some 5 }, true, false) := by
  decide

/-- C5 amended: with a callback registered, the very first apply after
construction fires the callback, re-applying the same payload fires it no
further time (and leaves the stored payload unchanged), applying a different
payload fires it again; `process` returns `True` whenever the address matches
— also when no update occurred — rather than whether an update occurred. -/
theorem C5_amended_change_detection (comp : String) (g : Option Int) (br : Int)
    (p q : Int) (hpq : q ≠ p) :
    RemoteValue.process
      { doip_component := comp, group_address := g, brightness_val := br,
        hasCb := true, payload := Option.none } g p =
      ({ doip_component := comp, group_address := g, brightness_val := br,
         hasCb := true, payload := some p }, true, true) ∧
    RemoteValue.process
      { doip_component := comp, group_address := g, brightness_val := br,
        hasCb := true, payload := some p } g p =
      ({ doip_component := comp, group_address := g, brightness_val := br,
         hasCb := true, payload := some p }, true, false) ∧
    RemoteValue.process
      { doip_component := comp, group_address := g, brightness_val := br,
        hasCb := true, payload := some p } g q =
      ({ doip_component := comp, group_address := g, brightness_val := br,
         hasCb := true, payload := some q }, true, true) := by
  have hqp : p ≠ q := fun h => hpq h.symm
  unfold RemoteValue.process
  refine ⟨by simp, by simp, by simp [hqp]⟩

/-- C5 amended witness: instantiated at address 1 with payloads 5 and 6. -/
theorem C5_amended_change_detection_witness :
    (6 : Int) ≠ 5 ∧
    (RemoteValue.process
      { doip_component := "RELAY", group_address := some 1, brightness_val := 0,
        hasCb := true, payload := Option.none } (some 1) 5 =
      ({ doip_component := "RELAY", group_address := some 1, brightness_val := 0,
         hasCb := true, payload := some 5 }, true, true) ∧
    RemoteValue.process
      { doip_component := "RELAY", group_address := some 1, brightness_val := 0,
        hasCb := true, payload := some 5 } (some 1) 5 =
      ({ doip_component := "RELAY", group_address := some 1, brightness_val := 0,
         hasCb := true, payload := some 5 }, true, false) ∧
    RemoteValue.process
      { doip_component := "RELAY", group_address := some 1, brightness_val := 0,
        hasCb := true, payload := some 5 } (some 1) 6 =
      ({ doip_component := "RELAY", group_address := some 1, brightness_val := 0,
         hasCb := true, payload := some 6 }, true, true)) :=
  ⟨by decide, C5_amended_change_detection "RELAY" (some 1) 0 5 6 (by decide)⟩

/-- Helper: no `TelegramFunction` member is named "None". -/
theorem TelegramFunction_pyName_ne_None (f : TelegramFunction) : f.pyName ≠ "None" := by
  cases f <;> decide

/-- C8 counterexample: routing an inbound event whose function tag (99) is not
a `TelegramFunction` value raises (`ValueError` from `TelegramFunction(99)`)
out of `update_component_state` — the routing step does not "never raise". -/
theorem C8_counterexample :
    update_component_state [] 99 (some 1) 0 = RouteOutcome.raised := by
  rfl

/-- C8 amended: an event whose function tag resolves but whose (function,
address) pair has no registered device is logged and dropped without raising
and without calling any device method; an event whose function tag is unknown
raises a `ValueError` out of `update_component_state` (caught one level up by
the dispatch loop's per-item handler) and likewise calls no device method. -/
theorem C8_amended_routing (reg : List (String × List String)) (dc : Nat)
    (ga : Option Nat) (st : Nat) :
    (telegramFunctionOfNat dc = Option.none →
      update_component_state reg dc ga st = RouteOutcome.raised) ∧
    (∀ f, telegramFunctionOfNat dc = some f → ga = Option.none →
      update_component_state reg dc ga st = RouteOutcome.dropped) ∧
    (∀ f a, telegramFunctionOfNat dc = some f → ga = some a →
      registeredAt reg f.pyName (natToStr a) = false →
      update_component_state reg dc ga st = RouteOutcome.dropped) := by
  refine ⟨?_, ?_, ?_⟩
  · intro h
    unfold update_component_state
    rw [h]
  · intro f hf hga
    unfold update_component_state
    rw [hf, hga]
  · intro f a hf hga hreg
    unfold update_component_state
    rw [hf, hga]
    unfold registeredAt at hreg
    dsimp only
    rw [if_neg (TelegramFunction_pyName_ne_None f)]
    cases hl : lookupReg reg f.pyName with
    | none => rfl
    | some addrs =>
      rw [hl] at hreg
      have hreg' : addrs.contains (natToStr a) = false := hreg
      simp only [hreg', Bool.false_eq_true, if_false]

/-- C8 amended witness: instantiated at a registry holding RELAY address 5. -/
theorem C8_amended_routing_witness :
    update_component_state [("RELAY", ["5"])] 99 (some 1) 0 = RouteOutcome.raised ∧
    update_component_state [("RELAY", ["5"])] 1 Option.none 0 = RouteOutcome.dropped ∧
    update_component_state [("RELAY", ["5"])] 1 (some 7) 0 = RouteOutcome.dropped :=
  ⟨(C8_amended_routing [("RELAY", ["5"])] 99 (some 1) 0).1 rfl,
   (C8_amended_routing [("RELAY", ["5"])] 1 Option.none 0).2.1 .RELAY rfl rfl,
   (C8_amended_routing [("RELAY", ["5"])] 1 (some 7) 0).2.2 .RELAY 7 rfl rfl (by decide)⟩

/-- Helper: `send` on a remote value with a resolvable component name and an
int group address queues exactly one SET telegram. -/
theorem RemoteValue_send_eq (rv : RemoteValue) (f : TelegramFunction) (a : Int) (s : Int)
    (hf : telegramFunctionOfName rv.doip_component = some f)
    (hga : rv.group_address = some a) :
    rv.send s = some
      { start := 2, length := 0, command := 7,
        payload := [PyVal.central, PyVal.int f.value, PyVal.int 0, PyVal.int a,
          PyVal.int (if rv.doip_component = "DIMMER" then rv.brightness_val else s)],
        checksum := 0 } := by
  unfold RemoteValue.send
  rw [hf, hga]
  rfl

/-- Helper: on an initialized remote value with resolvable component, `set`
returns exactly one queued wire write, fires the callback exactly when the
converted value differs from the stored payload (or the payload was unset) and
a callback is registered, and preserves the identity fields. -/
theorem RemoteValue_set_eq (conv : Int → Int) (rv : RemoteValue) (v : Option Int)
    (f : TelegramFunction) (a : Int)
    (hf : telegramFunctionOfName rv.doip_component = some f)
    (hga : rv.group_address = some a) (ha : a ≠ 0) :
    ∃ rv' t, RemoteValue.set conv rv v =
      .ok (rv', [t],
        (decide (rv.payload = Option.none) || decide (v.map conv ≠ rv.payload)) && rv.hasCb) ∧
      rv'.doip_component = rv.doip_component ∧
      rv'.group_address = rv.group_address ∧
      rv'.hasCb = rv.hasCb ∧
      rv'.payload =
        (if (decide (rv.payload = Option.none) || decide (v.map conv ≠ rv.payload)) = true
         then v.map conv else rv.payload) := by
  obtain ⟨dc, ga0, bv, cb, pl⟩ := rv
  simp only at hf hga ⊢
  subst hga
  have hinit : RemoteValue.initialized
      { doip_component := dc, group_address := some a, brightness_val := bv,
        hasCb := cb, payload := pl } = true := by
    unfold RemoteValue.initialized
    exact decide_eq_true ha
  unfold RemoteValue.set
  rw [hinit]
  dsimp only
  cases v with
  | none =>
    by_cases hu : (decide (pl = Option.none) || decide (Option.map conv Option.none ≠ pl)) = true
    · refine ⟨⟨dc, some a, bv, cb, Option.map conv Option.none⟩,
        { start := 2, length := 0, command := 7,
          payload := [PyVal.central, PyVal.int f.value, PyVal.int 0, PyVal.int a,
            PyVal.int (if dc = "DIMMER" then bv else 103)], checksum := 0 },
        ?_, rfl, rfl, rfl, by rw [if_pos hu]⟩
      rw [if_pos hu, RemoteValue_send_eq _ f a 103 hf rfl]
    · refine ⟨⟨dc, some a, bv, cb, pl⟩,
        { start := 2, length := 0, command := 7,
          payload := [PyVal.central, PyVal.int f.value, PyVal.int 0, PyVal.int a,
            PyVal.int (if dc = "DIMMER" then bv else 103)], checksum := 0 },
        ?_, rfl, rfl, rfl, by rw [if_neg hu]⟩
      rw [if_neg hu, RemoteValue_send_eq _ f a 103 hf rfl]
  | some vv =>
    by_cases hu : (decide (pl = Option.none) || decide (Option.map conv (some vv) ≠ pl)) = true
    · refine ⟨⟨dc, some a, vv, cb, Option.map conv (some vv)⟩,
        { start := 2, length := 0, command := 7,
          payload := [PyVal.central, PyVal.int f.value, PyVal.int 0, PyVal.int a,
            PyVal.int (if dc = "DIMMER" then vv else 103)], checksum := 0 },
        ?_, rfl, rfl, rfl, by rw [if_pos hu]⟩
      rw [if_pos hu, RemoteValue_send_eq _ f a 103 hf rfl]
    · refine ⟨⟨dc, some a, vv, cb, pl⟩,
        { start := 2, length := 0, command := 7,
          payload := [PyVal.central, PyVal.int f.value, PyVal.int 0, PyVal.int a,
            PyVal.int (if dc = "DIMMER" then vv else 103)], checksum := 0 },
        ?_, rfl, rfl, rfl, by rw [if_neg hu]⟩
      rw [if_neg hu, RemoteValue_send_eq _ f a 103 hf rfl]

/-- C6: on a bound remote value (int group address, resolvable component
name), every `set` call issues exactly one wire write, the callback fires only
when the converted value differs from the stored payload or the payload was
unset; in particular two consecutive `set(ON)` calls issue two wire writes but
fire the callback only once. -/
theorem C6_set_always_writes (conv : Int → Int) (rv : RemoteValue) (v : Option Int)
    (f : TelegramFunction) (a : Int)
    (hf : telegramFunctionOfName rv.doip_component = some f)
    (hga : rv.group_address = some a) (ha : a ≠ 0) :
    (∃ rv' t, RemoteValue.set conv rv v =
      .ok (rv', [t],
        (decide (rv.payload = Option.none) || decide (v.map conv ≠ rv.payload)) && rv.hasCb)) ∧
    (rv.payload = Option.none → rv.hasCb = true →
      ∃ rv1 t1 rv2 t2,
        RemoteValue.set conv rv (some 255) = .ok (rv1, [t1], true) ∧
        RemoteValue.set conv rv1 (some 255) = .ok (rv2, [t2], false)) := by
  constructor
  · obtain ⟨rv', t, h, -, -, -, -⟩ := RemoteValue_set_eq conv rv v f a hf hga ha
    exact ⟨rv', t, h⟩
  · intro hpl hcb
    obtain ⟨rv1, t1, h1, hdc1, hga1, hcb1, hpl1⟩ :=
      RemoteValue_set_eq conv rv (some 255) f a hf hga ha
    have hu1 : (decide (rv.payload = Option.none) ||
        decide ((some 255).map conv ≠ rv.payload)) = true := by
      rw [hpl]
      simp
    have e1 : ((decide (rv.payload = Option.none) ||
        decide ((some 255).map conv ≠ rv.payload)) && rv.hasCb) = true := by
      rw [hu1, hcb]
      rfl
    obtain ⟨rv2, t2, h2, -, -, -, -⟩ :=
      RemoteValue_set_eq conv rv1 (some 255) f a
        (by rw [hdc1]; exact hf) (by rw [hga1]; exact hga) ha
    have hp1 : rv1.payload = some (conv 255) := by
      rw [hpl1, if_pos hu1]
      rfl
    have e2 : ((decide (rv1.payload = Option.none) ||
        decide ((some 255).map conv ≠ rv1.payload)) && rv1.hasCb) = false := by
      rw [hp1]
      simp
    rw [e1] at h1
    rw [e2] at h2
    exact ⟨rv1, t1, rv2, t2, h1, h2⟩

/-- C6 witness: two consecutive `set(ON)` calls on a bound RELAY remote value
with an unset payload — two wire writes, one callback invocation. -/
theorem C6_set_always_writes_witness :
    ∃ rv1 t1 rv2 t2,
      RemoteValue.set (fun x => x)
        { doip_component := "RELAY", group_address := some 1, brightness_val := 0,
          hasCb := true, payload := Option.none } (some 255) = .ok (rv1, [t1], true) ∧
      RemoteValue.set (fun x => x) rv1 (some 255) = .ok (rv2, [t2], false) :=
  (C6_set_always_writes (fun x => x)
    { doip_component := "RELAY", group_address := some 1, brightness_val := 0,
      hasCb := true, payload := Option.none }
    (some 255) .RELAY 1 rfl rfl (by decide)).2 rfl rfl

/-! ### Helper lemmas for frame extraction -/

/-- Helper: `digitsAux` does not depend on the fuel once it is at least `n`. -/
theorem digitsAux_congr : ∀ (f g n : Nat), n ≤ f → n ≤ g → digitsAux f n = digitsAux g n := by
  intro f
  induction f with
  | zero =>
    intro g n hf _
    have hn : n = 0 := Nat.le_zero.mp hf
    subst hn
    cases g with
    | zero => rfl
    | succ g => simp [digitsAux]
  | succ f ih =>
    intro g n hf hg
    cases g with
    | zero =>
      have hn : n = 0 := Nat.le_zero.mp hg
      subst hn
      simp [digitsAux]
    | succ g =>
      by_cases hn : n = 0
      · subst hn
        simp [digitsAux]
      · have hd : n / 10 < n := Nat.div_lt_self (Nat.pos_of_ne_zero hn) (by decide)
        simp only [digitsAux, if_neg hn]
        rw [ih g (n / 10) (by omega) (by omega)]

/-- Helper: the defining equation of `natDigits`. -/
theorem natDigits_def (n : Nat) :
    natDigits n = if n = 0 then [] else n % 10 :: natDigits (n / 10) := by
  by_cases hn : n = 0
  · subst hn
    rfl
  · unfold natDigits
    cases n with
    | zero => exact absurd rfl hn
    | succ m =>
      rw [if_neg hn]
      have hd : (m + 1) / 10 < m + 1 := Nat.div_lt_self (Nat.succ_pos m) (by decide)
      simp only [digitsAux, if_neg hn]
      rw [digitsAux_congr m ((m + 1) / 10) ((m + 1) / 10) (by omega) le_rfl]

/-- Helper: every decimal digit is below ten (fueled form). -/
theorem natDigits_all_lt : ∀ (f n : Nat), n ≤ f → ∀ d ∈ natDigits n, d < 10 := by
  intro f
  induction f with
  | zero =>
    intro n hf d hd
    have hn : n = 0 := Nat.le_zero.mp hf
    subst hn
    rw [natDigits_def] at hd
    simp at hd
  | succ f ih =>
    intro n hf d hd
    rw [natDigits_def] at hd
    by_cases hn : n = 0
    · rw [if_pos hn] at hd
      simp at hd
    · rw [if_neg hn] at hd
      rcases List.mem_cons.mp hd with h | h
      · subst h
        exact Nat.mod_lt n (by decide)
      · have hdlt : n / 10 < n := Nat.div_lt_self (Nat.pos_of_ne_zero hn) (by decide)
        exact ih (n / 10) (by omega) d h

/-- Helper: every decimal digit is below ten. -/
theorem natDigits_lt (n d : Nat) (h : d ∈ natDigits n) : d < 10 :=
  natDigits_all_lt n n le_rfl d h

/-- Helper: the decimal digits evaluate back to the number (fueled form). -/
theorem natDigits_val : ∀ (f n : Nat), n ≤ f → Nat.ofDigits 10 (natDigits n) = n := by
  intro f
  induction f with
  | zero =>
    intro n hf
    have hn : n = 0 := Nat.le_zero.mp hf
    subst hn
    rw [natDigits_def]
    simp [Nat.ofDigits_nil]
  | succ f ih =>
    intro n hf
    rw [natDigits_def]
    by_cases hn : n = 0
    · rw [if_pos hn, Nat.ofDigits_nil]
      omega
    · have hdlt : n / 10 < n := Nat.div_lt_self (Nat.pos_of_ne_zero hn) (by decide)
      rw [if_neg hn, Nat.ofDigits_cons, ih (n / 10) (by omega)]
      omega

/-- Helper: the decimal digits evaluate back to the number. -/
theorem ofDigits_natDigits (n : Nat) : Nat.ofDigits 10 (natDigits n) = n :=
  natDigits_val n n le_rfl

/-- Helper: the character of a digit is an ASCII digit. -/
theorem digitChar_isDigit {d : Nat} (h : d < 10) : (digitChar d).isDigit = true := by
  interval_cases d <;> decide

/-- Helper: the numeric value of a digit character. -/
theorem digitChar_toNat {d : Nat} (h : d < 10) : (digitChar d).toNat - 48 = d := by
  interval_cases d <;> decide

/-- Helper: a digit character is not a comma. -/
theorem digitChar_ne_comma {d : Nat} (h : d < 10) : digitChar d ≠ ',' := by
  interval_cases d <;> decide

/-- Helper: a decimal rendering is never empty. -/
theorem natToChars_ne_nil (n : Nat) : natToChars n ≠ [] := by
  unfold natToChars
  by_cases hn : n = 0
  · rw [if_pos hn]
    simp
  · rw [if_neg hn]
    simp only [ne_eq, List.map_eq_nil_iff, List.reverse_eq_nil_iff]
    rw [natDigits_def, if_neg hn]
    simp

/-- Helper: a decimal rendering consists of digit characters. -/
theorem natToChars_all_digit (n : Nat) : ∀ c ∈ natToChars n, c.isDigit = true := by
  intro c hc
  unfold natToChars at hc
  by_cases hn : n = 0
  · rw [if_pos hn] at hc
    simp at hc
    subst hc
    decide
  · rw [if_neg hn] at hc
    simp only [List.mem_map, List.mem_reverse] at hc
    obtain ⟨d, hd, rfl⟩ := hc
    exact digitChar_isDigit (natDigits_lt n d hd)

/-- Helper: a decimal rendering contains no comma. -/
theorem natToChars_no_comma (n : Nat) : ',' ∉ natToChars n := by
  intro hc
  unfold natToChars at hc
  by_cases hn : n = 0
  · rw [if_pos hn] at hc
    exact absurd hc (by decide)
  · rw [if_neg hn] at hc
    simp only [List.mem_map, List.mem_reverse] at hc
    obtain ⟨d, hd, he⟩ := hc
    exact digitChar_ne_comma (natDigits_lt n d hd) he

/-- Helper: folding the decimal-parse step over rendered digits. -/
theorem foldl_digitChar : ∀ (L : List Nat), (∀ d ∈ L, d < 10) → ∀ (a : Nat),
    List.foldl (fun acc c => 10 * acc + (c.toNat - 48)) a ((L.reverse).map digitChar)
      = a * 10 ^ L.length + Nat.ofDigits 10 L := by
  intro L
  induction L with
  | nil =>
    intro _ a
    simp [Nat.ofDigits_nil]
  | cons d L ih =>
    intro hall a
    have hd : d < 10 := hall d (List.mem_cons_self _ _)
    have hL : ∀ x ∈ L, x < 10 := fun x hx => hall x (List.mem_cons_of_mem _ hx)
    simp only [List.reverse_cons, List.map_append, List.foldl_append, List.map_cons,
      List.map_nil, List.foldl_cons, List.foldl_nil]
    rw [ih hL a, digitChar_toNat hd, Nat.ofDigits_cons, List.length_cons, pow_succ]
    ring

/-- Helper: parsing a rendered decimal returns the original number. -/
theorem parse_natToChars (n : Nat) : parseNatChars (natToChars n) = some n := by
  by_cases hn : n = 0
  · subst hn
    rfl
  · unfold parseNatChars
    rw [if_neg (natToChars_ne_nil n), if_pos]
    · congr 1
      conv_lhs => rw [show natToChars n = (natDigits n).reverse.map digitChar by
        unfold natToChars; rw [if_neg hn]]
      rw [foldl_digitChar (natDigits n) (fun d hd => natDigits_lt n d hd) 0,
        ofDigits_natDigits]
      simp
    · rw [List.all_eq_true]
      intro c hc
      exact natToChars_all_digit n c hc

/-- Helper: `takeWhile`/`dropWhile` across a block that satisfies the
predicate throughout. -/
theorem takeWhile_dropWhile_append {p : Char → Bool} :
    ∀ (xs ys : List Char), (∀ c ∈ xs, p c = true) →
      (xs ++ ys).takeWhile p = xs ++ ys.takeWhile p ∧
      (xs ++ ys).dropWhile p = ys.dropWhile p := by
  intro xs
  induction xs with
  | nil => intro ys _; simp
  | cons c xs ih =>
    intro ys hall
    have hc : p c = true := hall c (List.mem_cons_self _ _)
    have hxs : ∀ x ∈ xs, p x = true := fun x hx => hall x (List.mem_cons_of_mem _ hx)
    obtain ⟨ht, hd⟩ := ih ys hxs
    constructor
    · simp only [List.cons_append, List.takeWhile_cons, hc, if_true, ht]
    · simp only [List.cons_append, List.dropWhile_cons, hc, if_true, hd]

/-- Helper: one repetition consumes a digit block followed by a comma. -/
theorem consumeRep_token_comma (t : Nat) (rest : List Char) :
    consumeRep (natToChars t ++ ',' :: rest) = (natToChars t ++ [','], rest) := by
  obtain ⟨ht, hd⟩ := takeWhile_dropWhile_append (natToChars t) (',' :: rest)
    (natToChars_all_digit t)
  unfold consumeRep
  rw [ht, hd]
  simp [List.takeWhile_cons, List.dropWhile_cons]

/-- Helper: one repetition consumes a trailing digit block entirely. -/
theorem consumeRep_token_end (t : Nat) :
    consumeRep (natToChars t) = (natToChars t, []) := by
  obtain ⟨ht, hd⟩ := takeWhile_dropWhile_append (natToChars t) []
    (natToChars_all_digit t)
  unfold consumeRep
  rw [List.append_nil] at ht hd
  rw [ht, hd]
  simp

/-- Helper: repetitions on the empty stream consume nothing. -/
theorem consumeReps_nil (k : Nat) : consumeReps k [] = ([], []) := by
  induction k with
  | zero => rfl
  | succ k ih =>
    simp [consumeReps, show consumeRep [] = ([], []) from rfl, ih]

/-- Helper: at least `length` repetitions consume a whole joined token list. -/
theorem consumeReps_join : ∀ (us : List Nat) (k : Nat), us ≠ [] → us.length ≤ k →
    consumeReps k (joinTokens us) = (joinTokens us, []) := by
  intro us
  induction us with
  | nil => intro k h _; exact absurd rfl h
  | cons t us ih =>
    intro k _ hk
    cases us with
    | nil =>
      cases k with
      | zero => simp at hk
      | succ k =>
        simp [consumeReps, show joinTokens [t] = natToChars t from rfl,
          consumeRep_token_end, consumeReps_nil]
    | cons u us' =>
      cases k with
      | zero => simp at hk
      | succ k =>
        have hk' : (u :: us').length ≤ k := by
          simp only [List.length_cons] at hk ⊢
          omega
        simp only [consumeReps,
          show joinTokens (t :: u :: us') = natToChars t ++ ',' :: joinTokens (u :: us')
            from rfl,
          consumeRep_token_comma, ih k (by simp) hk']
        simp

/-- Helper: `dropWhile` never lengthens a list. -/
theorem dropWhile_length_le (p : Char → Bool) :
    ∀ (l : List Char), (l.dropWhile p).length ≤ l.length := by
  intro l
  induction l with
  | nil => simp
  | cons c l ih =>
    rw [List.dropWhile_cons]
    split
    · exact Nat.le_succ_of_le ih
    · exact le_rfl

/-- Helper: one repetition never lengthens the remainder. -/
theorem consumeRep_rest_le (cs : List Char) : (consumeRep cs).2.length ≤ cs.length := by
  have hd := dropWhile_length_le (fun c => c.isDigit) cs
  unfold consumeRep
  cases h : cs.dropWhile (fun c => c.isDigit) with
  | nil => simp
  | cons c rest =>
    rw [h] at hd
    simp only [List.length_cons] at hd
    dsimp only
    by_cases hc : c = ','
    · rw [if_pos hc]
      dsimp only
      omega
    · rw [if_neg hc]
      dsimp only
      simp only [List.length_cons]
      omega

/-- Helper: repetitions never lengthen the remainder. -/
theorem consumeReps_rest_le : ∀ (k : Nat) (cs : List Char),
    (consumeReps k cs).2.length ≤ cs.length := by
  intro k
  induction k with
  | zero => intro cs; exact le_rfl
  | succ k ih =>
    intro cs
    unfold consumeReps
    exact le_trans (ih (consumeRep cs).2) (consumeRep_rest_le cs)

/-- Helper: the scanner yields nothing on the empty stream, any fuel. -/
theorem scanFramesAux_nil (f : Nat) : scanFramesAux f [] = [] := by
  cases f <;> rfl

/-- Helper: the scanner does not depend on the fuel once it is at least the
stream length. -/
theorem scanFramesAux_congr : ∀ (f g : Nat) (cs : List Char),
    cs.length ≤ f → cs.length ≤ g → scanFramesAux f cs = scanFramesAux g cs := by
  intro f
  induction f with
  | zero =>
    intro g cs hf _
    have : cs = [] := List.eq_nil_of_length_eq_zero (Nat.le_zero.mp hf)
    subst this
    rw [scanFramesAux_nil, scanFramesAux_nil]
  | succ f ih =>
    intro g cs hf hg
    cases cs with
    | nil => rw [scanFramesAux_nil, scanFramesAux_nil]
    | cons c cs' =>
      cases g with
      | zero => simp at hg
      | succ g =>
        simp only [scanFramesAux]
        by_cases hp : headerChars.isPrefixOf (c :: cs') = true
        · rw [if_pos hp, if_pos hp]
          have hlen : (consumeReps 7 ((c :: cs').drop 7)).2.length ≤ cs'.length := by
            have h1 := consumeReps_rest_le 7 ((c :: cs').drop 7)
            have h2 : ((c :: cs').drop 7).length ≤ cs'.length := by
              rw [List.length_drop]
              simp only [List.length_cons]
              omega
            omega
          have hf' : cs'.length ≤ f := by
            simp only [List.length_cons] at hf
            omega
          have hg' : cs'.length ≤ g := by
            simp only [List.length_cons] at hg
            omega
          rw [ih g _ (by omega) (by omega)]
        · rw [if_neg hp, if_neg hp]
          refine ih g cs' ?_ ?_
          · simp only [List.length_cons] at hf
            omega
          · simp only [List.length_cons] at hg
            omega

/-- Helper: the scanner's step on a match. -/
theorem scanFrames_cons_match (c : Char) (cs' : List Char)
    (hp : headerChars.isPrefixOf (c :: cs') = true) :
    scanFrames (c :: cs') =
      (headerChars ++ (consumeReps 7 ((c :: cs').drop 7)).1) ::
        scanFrames (consumeReps 7 ((c :: cs').drop 7)).2 := by
  unfold scanFrames
  conv_lhs => rw [show (c :: cs').length = cs'.length + 1 from rfl]
  simp only [scanFramesAux, if_pos hp]
  congr 1
  apply scanFramesAux_congr
  · have h1 := consumeReps_rest_le 7 ((c :: cs').drop 7)
    have h2 : ((c :: cs').drop 7).length ≤ cs'.length := by
      rw [List.length_drop]
      simp only [List.length_cons]
      omega
    omega
  · exact le_rfl

/-- Helper: the scanner's step on a mismatch. -/
theorem scanFrames_cons_nomatch (c : Char) (cs' : List Char)
    (hp : ¬ headerChars.isPrefixOf (c :: cs') = true) :
    scanFrames (c :: cs') = scanFrames cs' := by
  unfold scanFrames
  conv_lhs => rw [show (c :: cs').length = cs'.length + 1 from rfl]
  simp only [scanFramesAux, if_neg hp]

/-- Helper: splitting a comma-free string yields one component. -/
theorem splitCommas_no_comma : ∀ (cs : List Char), ',' ∉ cs → splitCommas cs = [cs] := by
  intro cs
  induction cs with
  | nil => intro _; rfl
  | cons c rest ih =>
    intro h
    have hc : ¬ (c = ',') := fun he => h (by rw [he]; exact List.mem_cons_self _ _)
    have hrest : ',' ∉ rest := fun hm => h (List.mem_cons_of_mem _ hm)
    simp only [splitCommas, if_neg hc, ih hrest]

/-- Helper: splitting at the first comma after a comma-free block. -/
theorem splitCommas_append_comma : ∀ (xs rest : List Char), ',' ∉ xs →
    splitCommas (xs ++ ',' :: rest) = xs :: splitCommas rest := by
  intro xs
  induction xs with
  | nil =>
    intro rest _
    simp [splitCommas]
  | cons c xs ih =>
    intro rest h
    have hc : ¬ (c = ',') := fun he => h (by rw [he]; exact List.mem_cons_self _ _)
    have hxs : ',' ∉ xs := fun hm => h (List.mem_cons_of_mem _ hm)
    simp only [List.cons_append, splitCommas, if_neg hc, List.append_eq]
    rw [ih rest hxs]

/-- Helper: splitting a joined token list recovers the rendered tokens. -/
theorem splitCommas_join : ∀ (us : List Nat), us ≠ [] →
    splitCommas (joinTokens us) = us.map natToChars := by
  intro us
  induction us with
  | nil => intro h; exact absurd rfl h
  | cons t us ih =>
    intro _
    cases us with
    | nil =>
      rw [show joinTokens [t] = natToChars t from rfl,
        splitCommas_no_comma _ (natToChars_no_comma t)]
      rfl
    | cons u us' =>
      rw [show joinTokens (t :: u :: us') = natToChars t ++ ',' :: joinTokens (u :: us')
          from rfl,
        splitCommas_append_comma _ _ (natToChars_no_comma t), ih (by simp)]
      rfl

/-- Helper: the literal header matches at the start of any stream it heads. -/
theorem header_isPrefixOf_append (l : List Char) :
    headerChars.isPrefixOf (headerChars ++ l) = true := by
  simp [headerChars, List.isPrefixOf]

/-- Helper: joining 2, 9, 16 and a nonempty tail renders the header followed
by the joined tail. -/
theorem joinTokens_header (us : List Nat) (h : us ≠ []) :
    joinTokens (2 :: 9 :: 16 :: us) = headerChars ++ joinTokens us := by
  cases us with
  | nil => exact absurd rfl h
  | cons u us' => rfl

/-- Helper: extraction on a header followed by at most seven tokens reduces to
processing the single matched packet. -/
theorem process_frames_header (us : List Nat) (hne : us ≠ []) (hlen : us.length ≤ 7) :
    process_frames (2 :: 9 :: 16 :: us) =
      (process_frame (headerChars ++ joinTokens us)).toList := by
  unfold process_frames
  rw [joinTokens_header us hne]
  obtain ⟨u, us', rfl⟩ : ∃ u us', us = u :: us' := by
    cases us with
    | nil => exact absurd rfl hne
    | cons a b => exact ⟨a, b, rfl⟩
  have hcons : headerChars ++ joinTokens (u :: us') =
      '2' :: (',' :: '9' :: ',' :: '1' :: '6' :: ',' :: joinTokens (u :: us')) := rfl
  rw [hcons, scanFrames_cons_match _ _ (by rw [← hcons]; exact header_isPrefixOf_append _)]
  rw [show ('2' :: (',' :: '9' :: ',' :: '1' :: '6' :: ',' :: joinTokens (u :: us'))).drop 7
      = joinTokens (u :: us') from rfl]
  rw [consumeReps_join (u :: us') 7 (by simp) hlen]
  dsimp only
  rw [show scanFrames ([] : List Char) = [] from rfl]
  rw [← hcons]
  cases h : process_frame (headerChars ++ joinTokens (u :: us')) with
  | none => simp [h]
  | some fr => simp [h]

/-- Helper: a packet with fewer than nine comma components yields no frame
(`IndexError` on `event[8]`, caught in `process_frame`). -/
theorem process_frame_of_short (packet : List Char)
    (h : (splitCommas packet).length ≤ 8) : process_frame packet = Option.none := by
  unfold process_frame
  have h8 : (splitCommas packet)[8]? = Option.none := by
    rw [List.getElem?_eq_none_iff]
    omega
  rcases h4 : (splitCommas packet)[4]? with _ | e4
  · simp [h4]
  · rcases hp4 : parseNatChars e4 with _ | f
    · simp [h4, hp4]
    · rcases h6 : (splitCommas packet)[6]? with _ | e6
      · simp [h4, hp4, h6]
      · rcases hp6 : parseNatChars e6 with _ | a
        · simp [h4, hp4, h6, hp6]
        · simp [h4, hp4, h6, hp6, h8]

/-- C4 counterexample: the regex scan is not per-token.  The token sequence
42,9,16,1,1,0,3,0,255 contains no 9-token run beginning with tokens 2,9,16,
yet one Event is extracted (the match starts inside the text of token 42);
and two adjacent well-formed runs yield only one Event, because the first
match also consumes the token following the run — here the second run's
leading 2 — destroying the second header. -/
theorem C4_counterexample :
    (process_frames [42, 9, 16, 1, 1, 0, 3, 0, 255]).length = 1 ∧
    (process_frames [2, 9, 16, 1, 1, 0, 3, 0, 255, 2, 9, 16, 1, 1, 0, 4, 0, 255]).length
      = 1 := by
  refine ⟨by decide, by decide⟩

/-- C4 amended: when the entire input is a single well-formed 9-token run
2,9,16,t3..t8, extraction yields exactly one Event with function = token 4,
address = token 6, state = token 8 and the split decimal texts as payload;
and an input consisting of the 2,9,16 header followed by fewer than six
further tokens (fewer than nine in total) yields zero Events.  (The original
per-run claim fails for runs embedded in a longer stream: a match may start
inside a token's decimal text, and each match consumes one token beyond the
run, see the counterexample.) -/
theorem C4_amended_extraction :
    (∀ t3 t4 t5 t6 t7 t8 : Nat,
      process_frames [2, 9, 16, t3, t4, t5, t6, t7, t8] =
        [{ doip_component := t4, group_address := t6, state := t8,
           payload := [2, 9, 16, t3, t4, t5, t6, t7, t8].map natToChars }]) ∧
    (∀ ts : List Nat, ts.length ≤ 5 → process_frames (2 :: 9 :: 16 :: ts) = []) := by
  constructor
  · intro t3 t4 t5 t6 t7 t8
    rw [show ([2, 9, 16, t3, t4, t5, t6, t7, t8] : List Nat)
        = 2 :: 9 :: 16 :: [t3, t4, t5, t6, t7, t8] from rfl]
    rw [process_frames_header _ (by simp) (by simp)]
    have hsplit : splitCommas (headerChars ++ joinTokens [t3, t4, t5, t6, t7, t8]) =
        ['2'] :: ['9'] :: ['1', '6'] :: ([t3, t4, t5, t6, t7, t8].map natToChars) := by
      rw [show headerChars ++ joinTokens [t3, t4, t5, t6, t7, t8] =
          ['2'] ++ ',' :: (['9'] ++ ',' :: (['1', '6'] ++ ',' ::
            joinTokens [t3, t4, t5, t6, t7, t8])) from rfl]
      rw [splitCommas_append_comma _ _ (by decide),
        splitCommas_append_comma _ _ (by decide),
        splitCommas_append_comma _ _ (by decide),
        splitCommas_join _ (by simp)]
    unfold process_frame
    rw [hsplit]
    simp only [List.map_cons, List.map_nil, List.getElem?_cons_succ,
      List.getElem?_cons_zero, Option.bind_eq_bind, Option.some_bind,
      parse_natToChars]
    rw [show natToChars 2 = ['2'] from rfl, show natToChars 9 = ['9'] from rfl,
      show natToChars 16 = ['1', '6'] from rfl]
    rfl
  · intro ts hts
    cases ts with
    | nil => decide
    | cons t ts' =>
      have h7 : (t :: ts').length ≤ 7 := by omega
      rw [process_frames_header _ (by simp) h7]
      have hsplit : splitCommas (headerChars ++ joinTokens (t :: ts')) =
          ['2'] :: ['9'] :: ['1', '6'] :: ((t :: ts').map natToChars) := by
        rw [show headerChars ++ joinTokens (t :: ts') =
            ['2'] ++ ',' :: (['9'] ++ ',' :: (['1', '6'] ++ ',' ::
              joinTokens (t :: ts'))) from rfl]
        rw [splitCommas_append_comma _ _ (by decide),
          splitCommas_append_comma _ _ (by decide),
          splitCommas_append_comma _ _ (by decide),
          splitCommas_join _ (by simp)]
      rw [process_frame_of_short _ (by
        rw [hsplit]
        simp only [List.length_cons, List.length_map]
        simp only [List.length_cons] at hts
        omega)]
      rfl

/-- C4 amended witness: the spec's own example run and a short run. -/
theorem C4_amended_extraction_witness :
    process_frames [2, 9, 16, 1, 1, 0, 3, 0, 255] =
      [{ doip_component := 1, group_address := 3, state := 255,
         payload := [2, 9, 16, 1, 1, 0, 3, 0, 255].map natToChars }] ∧
    process_frames [2, 9, 16, 1, 1] = [] :=
  ⟨C4_amended_extraction.1 1 1 0 3 0 255,
   C4_amended_extraction.2 [1, 1] (by decide)⟩

end Teletask
